import Mathlib

/-!
Verification of the caching core of the spoonacular proxy backend
(`src/index.js`): the JSON value model, the TTL cache store, the
`fetchWithCache` orchestrator, per-route cache-key derivation, the
search route handler, and the cache statistics route.

Conventions of the embedding:
* JSON payloads are modelled by the inductive `Json`; JavaScript
  truthiness of a value is `Json.truthy`.
* Time is an abstract counter of seconds (`Nat`); the ISO timestamp
  string produced by `new Date().toISOString()` at return time is an
  explicit parameter `ts`.
* The outcome of the single outbound `fetch`/`response.json()` sequence
  is an explicit `RemoteOutcome` parameter; `remoteCalls` in the result
  counts how many times the remote was consulted.
-/

namespace Spoonacular

/-- JSON values as decoded by `response.json()` (numbers simplified to `Int`;
no claim under verification depends on non-integral numerics). -/
inductive Json where
  | null : Json
  | bool : Bool → Json
  | num : Int → Json
  | str : String → Json
  | arr : List Json → Json
  | obj : List (String × Json) → Json

/-- Structural boolean equality on `Json`. -/
def Json.beq : Json → Json → Bool
  | .null, .null => true
  | .bool a, .bool b => a == b
  | .num a, .num b => a == b
  | .str a, .str b => a == b
  | .arr a, .arr b => go a b
  | .obj a, .obj b => goF a b
  | _, _ => false
where
  go : List Json → List Json → Bool
    | [], [] => true
    | x :: xs, y :: ys => Json.beq x y && go xs ys
    | _, _ => false
  goF : List (String × Json) → List (String × Json) → Bool
    | [], [] => true
    | (k, x) :: xs, (k', y) :: ys => k == k' && Json.beq x y && goF xs ys
    | _, _ => false

mutual

theorem Json.beq_refl : ∀ (j : Json), Json.beq j j = true
  | .null => rfl
  | .bool a => by simp [Json.beq]
  | .num a => by simp [Json.beq]
  | .str a => by simp [Json.beq]
  | .arr a => by simp only [Json.beq]; exact Json.beqGo_refl a
  | .obj a => by simp only [Json.beq]; exact Json.beqGoF_refl a

theorem Json.beqGo_refl : ∀ (l : List Json), Json.beq.go l l = true
  | [] => rfl
  | x :: xs => by simp [Json.beq.go, Json.beq_refl x, Json.beqGo_refl xs]

theorem Json.beqGoF_refl : ∀ (l : List (String × Json)), Json.beq.goF l l = true
  | [] => rfl
  | (k, x) :: xs => by simp [Json.beq.goF, Json.beq_refl x, Json.beqGoF_refl xs]

end

mutual

theorem Json.eq_of_beq : ∀ (a b : Json), Json.beq a b = true → a = b
  | .null, .null, _ => rfl
  | .bool a, .bool b, h => by simp [Json.beq] at h; simp [h]
  | .num a, .num b, h => by simp [Json.beq] at h; simp [h]
  | .str a, .str b, h => by simp [Json.beq] at h; simp [h]
  | .arr a, .arr b, h => by
      simp only [Json.beq] at h
      rw [Json.eqGo_of_beq a b h]
  | .obj a, .obj b, h => by
      simp only [Json.beq] at h
      rw [Json.eqGoF_of_beq a b h]
  | .null, .bool _, h => by simp [Json.beq] at h
  | .null, .num _, h => by simp [Json.beq] at h
  | .null, .str _, h => by simp [Json.beq] at h
  | .null, .arr _, h => by simp [Json.beq] at h
  | .null, .obj _, h => by simp [Json.beq] at h
  | .bool _, .null, h => by simp [Json.beq] at h
  | .bool _, .num _, h => by simp [Json.beq] at h
  | .bool _, .str _, h => by simp [Json.beq] at h
  | .bool _, .arr _, h => by simp [Json.beq] at h
  | .bool _, .obj _, h => by simp [Json.beq] at h
  | .num _, .null, h => by simp [Json.beq] at h
  | .num _, .bool _, h => by simp [Json.beq] at h
  | .num _, .str _, h => by simp [Json.beq] at h
  | .num _, .arr _, h => by simp [Json.beq] at h
  | .num _, .obj _, h => by simp [Json.beq] at h
  | .str _, .null, h => by simp [Json.beq] at h
  | .str _, .bool _, h => by simp [Json.beq] at h
  | .str _, .num _, h => by simp [Json.beq] at h
  | .str _, .arr _, h => by simp [Json.beq] at h
  | .str _, .obj _, h => by simp [Json.beq] at h
  | .arr _, .null, h => by simp [Json.beq] at h
  | .arr _, .bool _, h => by simp [Json.beq] at h
  | .arr _, .num _, h => by simp [Json.beq] at h
  | .arr _, .str _, h => by simp [Json.beq] at h
  | .arr _, .obj _, h => by simp [Json.beq] at h
  | .obj _, .null, h => by simp [Json.beq] at h
  | .obj _, .bool _, h => by simp [Json.beq] at h
  | .obj _, .num _, h => by simp [Json.beq] at h
  | .obj _, .str _, h => by simp [Json.beq] at h
  | .obj _, .arr _, h => by simp [Json.beq] at h

theorem Json.eqGo_of_beq : ∀ (a b : List Json), Json.beq.go a b = true → a = b
  | [], [], _ => rfl
  | [], _ :: _, h => by simp [Json.beq.go] at h
  | _ :: _, [], h => by simp [Json.beq.go] at h
  | x :: xs, y :: ys, h => by
      simp only [Json.beq.go, Bool.and_eq_true] at h
      rw [Json.eq_of_beq x y h.1, Json.eqGo_of_beq xs ys h.2]

theorem Json.eqGoF_of_beq : ∀ (a b : List (String × Json)), Json.beq.goF a b = true → a = b
  | [], [], _ => rfl
  | [], _ :: _, h => by simp [Json.beq.goF] at h
  | _ :: _, [], h => by simp [Json.beq.goF] at h
  | (k, x) :: xs, (k', y) :: ys, h => by
      simp only [Json.beq.goF, Bool.and_eq_true] at h
      obtain ⟨⟨hk, hv⟩, hrest⟩ := h
      have hk' : k = k' := by simpa using hk
      rw [hk', Json.eq_of_beq x y hv, Json.eqGoF_of_beq xs ys hrest]

end

instance : DecidableEq Json := fun a b =>
  if h : Json.beq a b = true then .isTrue (Json.eq_of_beq a b h)
  else .isFalse (fun he => h (he ▸ Json.beq_refl a))

/-- JavaScript truthiness of a JSON value, as tested by `if (cached)` in
`fetchWithCache` (src/index.js line 32). -/
def Json.truthy : Json → Bool
  | .null => false
  | .bool b => b
  | .num n => n != 0
  | .str s => s != ""
  | .arr _ => true
  | .obj _ => true

/-- Enumerable own properties contributed by spreading a value into an object
literal (`{...x}`): objects contribute their fields, arrays and strings their
index-keyed elements, primitives nothing. -/
def Json.spreadProps : Json → List (String × Json)
  | .obj fs => fs
  | .arr xs => indexed xs 0
  | .str s => indexed (s.data.map (fun ch => Json.str ch.toString)) 0
  | _ => []
where
  indexed : List Json → Nat → List (String × Json)
    | [], _ => []
    | x :: xs, i => (toString i, x) :: indexed xs (i + 1)

/-- Assignment of a field in a JavaScript object literal: an existing key keeps
its position and receives the new value, a fresh key is appended. -/
def setField : List (String × Json) → String → Json → List (String × Json)
  | [], k, v => [(k, v)]
  | (k', v') :: fs, k, v =>
      if k' = k then (k, v) :: fs else (k', v') :: setField fs k v

/-- First-match field lookup in an object's field list. -/
def getField : List (String × Json) → String → Option Json
  | [], _ => none
  | (k', v) :: fs, k => if k' = k then some v else getField fs k

/-- Removal of every field with the given key. -/
def removeField (fs : List (String × Json)) (k : String) : List (String × Json) :=
  fs.filter (fun p => p.1 != k)

/-- The response annotation performed on both paths of `fetchWithCache`
(src/index.js lines 34-38 and 55-59): the JavaScript object literal
`{...v, fromCache: b, timestamp: ts}`. -/
def annotate (v : Json) (b : Bool) (ts : String) : Json :=
  Json.obj (setField (setField v.spreadProps "fromCache" (Json.bool b))
    "timestamp" (Json.str ts))

/-- Field lookup on a JSON value (objects only). -/
def objField : Json → String → Option Json
  | .obj fs, k => getField fs k
  | _, _ => none

/-- Erasure of the two annotation fields from an object; other values are
returned unchanged. -/
def stripAnn : Json → Json
  | .obj fs => .obj (removeField (removeField fs "fromCache") "timestamp")
  | v => v

/-- A live cache entry: the stored payload and its absolute expiry time. -/
structure CacheEntry where
  value : Json
  expiresAt : Nat
deriving DecidableEq

/-- The in-memory cache: an association list from key to entry
(src/index.js line 15). -/
abbrev Cache := List (String × CacheEntry)

/-- First-match entry lookup, ignoring expiry. -/
def cacheLookup : Cache → String → Option CacheEntry
  | [], _ => none
  | (k', e) :: c, k => if k' = k then some e else cacheLookup c k

/-- Modelled from the spec: the cache store is the external NodeCache
dependency, whose code is not under src/. Spec section 4.1: `get` returns the
stored value iff the entry is present and unexpired, an entry being expired
(treated as absent) once `now >= expiresAt`; reading has no side effect. -/
def cacheGet (c : Cache) (key : String) (now : Nat) : Option Json :=
  match cacheLookup c key with
  | some e => if now < e.expiresAt then some e.value else none
  | none => none

/-- Modelled from the spec: the cache store is the external NodeCache
dependency, whose code is not under src/. Spec section 4.1: `set` inserts or
replaces the entry unconditionally, setting `expiresAt = now + ttlSeconds`. -/
def cacheSet : Cache → String → Json → Nat → Nat → Cache
  | [], key, v, ttl, now => [(key, ⟨v, now + ttl⟩)]
  | (k', e) :: c, key, v, ttl, now =>
      if k' = key then (key, ⟨v, now + ttl⟩) :: c
      else (k', e) :: cacheSet c key v ttl now

/-- Outcome of the single outbound fetch attempt made on a cache miss:
a parseable 2xx body, a non-ok HTTP status (src/index.js line 45), a network
error thrown by `fetch`, or a body parse failure thrown by `response.json()`. -/
inductive RemoteOutcome where
  | success : Json → RemoteOutcome
  | httpError : Nat → String → RemoteOutcome
  | networkError : String → RemoteOutcome
  | parseError : String → RemoteOutcome

/-- Result of one `fetchWithCache` invocation: the value returned or the error
message thrown, the cache state afterwards, and how many remote calls were
performed. -/
structure FetchResult where
  result : Except String Json
  cache : Cache
  remoteCalls : Nat

/-- The miss path of `fetchWithCache` (src/index.js lines 41-63): one remote
call; on success the decoded body is stored under the key and returned
annotated; on any failure nothing is written and an error whose message wraps
the cause in `Failed to fetch data: ...` is thrown. -/
def fetchMiss (c : Cache) (now : Nat) (ts : String) (key : String)
    (remote : RemoteOutcome) (ttl : Nat) : FetchResult :=
  match remote with
  | .success data =>
      { result := .ok (annotate data false ts),
        cache := cacheSet c key data ttl now, remoteCalls := 1 }
  | .httpError st stxt =>
      { result := .error ("Failed to fetch data: API error: " ++ toString st ++ " " ++ stxt),
        cache := c, remoteCalls := 1 }
  | .networkError msg =>
      { result := .error ("Failed to fetch data: " ++ msg), cache := c, remoteCalls := 1 }
  | .parseError msg =>
      { result := .error ("Failed to fetch data: " ++ msg), cache := c, remoteCalls := 1 }

/-- `fetchWithCache(cacheKey, url, cacheDuration)` (src/index.js lines 29-64).
The hit test is `if (cached)`: the value returned by `cache.get` must be
truthy, so an absent key, an expired entry, and a stored falsy value all take
the miss path. -/
def fetchWithCache (c : Cache) (now : Nat) (ts : String) (key : String)
    (remote : RemoteOutcome) (ttl : Nat) : FetchResult :=
  match cacheGet c key now with
  | some cached =>
      if cached.truthy then
        { result := .ok (annotate cached true ts), cache := c, remoteCalls := 0 }
      else fetchMiss c now ts key remote ttl
  | none => fetchMiss c now ts key remote ttl

/-- JavaScript `String.prototype.toLowerCase` on the characters of a string,
as used in the cache-key templates. -/
def jsToLower (s : String) : String := String.mk (s.data.map Char.toLower)

/-- Cache key of the search route: `` `search_${query.toLowerCase()}` ``
(src/index.js line 94). -/
def searchRecipesKey (query : String) : String := "search_" ++ jsToLower query

/-- Cache key of the unit-conversion route:
`` `convert_${ingredientName}_${sourceAmount}_${sourceUnit}_${targetUnit}` ``
(src/index.js line 711) — the free-text ingredient name is used verbatim. -/
def convertKey (ingredientName sourceAmount sourceUnit targetUnit : String) : String :=
  "convert_" ++ ingredientName ++ "_" ++ sourceAmount ++ "_" ++ sourceUnit ++ "_" ++ targetUnit

/-- An HTTP response produced by a route handler. -/
structure RouteResponse where
  status : Nat
  body : Json
deriving DecidableEq

/-- Observable outcome of one inbound request: the response sent, the cache
state afterwards, and the number of remote calls made. -/
structure HandlerOutcome where
  response : RouteResponse
  cache : Cache
  remoteCalls : Nat

/-- The 400 body of the search route (src/index.js lines 87-90). -/
def missingQueryBody : Json :=
  Json.obj [("error", Json.str "Query parameter is required"),
            ("example", Json.str "/api/searchRecipes?query=chicken")]

/-- The 500 body of the search route (src/index.js line 100), carrying the
upstream failure message in `details`. -/
def searchFailureBody (msg : String) : Json :=
  Json.obj [("error", Json.str "Failed to search recipes"), ("details", Json.str msg)]

/-- The `GET /api/searchRecipes` handler (src/index.js lines 83-102).
`req.query.query` is `none` when the parameter is absent; `if (!query)` also
rejects an empty string. On error from `fetchWithCache` the handler answers
500 with an error/details body. -/
def searchRecipesHandler (c : Cache) (now : Nat) (ts : String)
    (query : Option String) (remote : RemoteOutcome) : HandlerOutcome :=
  match query with
  | none => { response := { status := 400, body := missingQueryBody }, cache := c, remoteCalls := 0 }
  | some q =>
      if q = "" then
        { response := { status := 400, body := missingQueryBody }, cache := c, remoteCalls := 0 }
      else
        let fr := fetchWithCache c now ts (searchRecipesKey q) remote 3600
        match fr.result with
        | .ok v =>
            { response := { status := 200, body := v }, cache := fr.cache,
              remoteCalls := fr.remoteCalls }
        | .error msg =>
            { response := { status := 500, body := searchFailureBody msg },
              cache := fr.cache, remoteCalls := fr.remoteCalls }

/-- JavaScript `key.startsWith(p)`. -/
def jsStartsWith (s p : String) : Bool := p.data.isPrefixOf s.data

/-- The body of the `GET /api/cache/stats` response. -/
structure CacheStats where
  totalCachedItems : Nat
  cachedQueries : Nat
  cachedRecipes : Nat
  cachedIngredients : Nat
  cacheKeys : List String

/-- The `GET /api/cache/stats` handler over the snapshot of cache keys
(src/index.js lines 836-847). -/
def cacheStats (keys : List String) : CacheStats :=
  { totalCachedItems := keys.length,
    cachedQueries := (keys.filter (fun k => jsStartsWith k "search_")).length,
    cachedRecipes := (keys.filter (fun k => jsStartsWith k "recipe_")).length,
    cachedIngredients := (keys.filter (fun k => jsStartsWith k "ingredient_")).length,
    cacheKeys := keys }

theorem cacheLookup_cacheSet_self :
    ∀ (c : Cache) (key : String) (v : Json) (ttl now : Nat),
      cacheLookup (cacheSet c key v ttl now) key = some ⟨v, now + ttl⟩
  | [], key, v, ttl, now => by simp [cacheSet, cacheLookup]
  | (k', e) :: c, key, v, ttl, now => by
      by_cases h : k' = key
      · simp [cacheSet, cacheLookup, h]
      · simp [cacheSet, cacheLookup, h, cacheLookup_cacheSet_self c key v ttl now]

theorem cacheGet_cacheSet_self (c : Cache) (key : String) (v : Json) (ttl now now' : Nat) :
    cacheGet (cacheSet c key v ttl now) key now' =
      if now' < now + ttl then some v else none := by
  unfold cacheGet
  rw [cacheLookup_cacheSet_self]

theorem fetchWithCache_hit (c : Cache) (now : Nat) (ts : String) (key : String)
    (remote : RemoteOutcome) (ttl : Nat) (v : Json)
    (hget : cacheGet c key now = some v) (htr : v.truthy = true) :
    fetchWithCache c now ts key remote ttl =
      { result := .ok (annotate v true ts), cache := c, remoteCalls := 0 } := by
  unfold fetchWithCache
  rw [hget]
  simp [htr]

theorem fetchWithCache_of_none (c : Cache) (now : Nat) (ts : String) (key : String)
    (remote : RemoteOutcome) (ttl : Nat) (hget : cacheGet c key now = none) :
    fetchWithCache c now ts key remote ttl = fetchMiss c now ts key remote ttl := by
  unfold fetchWithCache
  rw [hget]

theorem fetchWithCache_of_falsy (c : Cache) (now : Nat) (ts : String) (key : String)
    (remote : RemoteOutcome) (ttl : Nat) (v : Json)
    (hget : cacheGet c key now = some v) (htr : v.truthy = false) :
    fetchWithCache c now ts key remote ttl = fetchMiss c now ts key remote ttl := by
  unfold fetchWithCache
  rw [hget]
  simp [htr]

theorem fetchMiss_remoteCalls (c : Cache) (now : Nat) (ts : String) (key : String)
    (remote : RemoteOutcome) (ttl : Nat) :
    (fetchMiss c now ts key remote ttl).remoteCalls = 1 := by
  cases remote <;> rfl

theorem getField_setField_self :
    ∀ (fs : List (String × Json)) (k : String) (v : Json),
      getField (setField fs k v) k = some v
  | [], k, v => by simp [setField, getField]
  | (k', v') :: fs, k, v => by
      by_cases h : k' = k
      · simp [setField, getField, h]
      · simp [setField, getField, h, getField_setField_self fs k v]

theorem getField_setField_ne :
    ∀ (fs : List (String × Json)) (k k' : String) (v : Json), ¬ k = k' →
      getField (setField fs k v) k' = getField fs k'
  | [], k, k', v, h => by simp [setField, getField, h]
  | (a, b) :: fs, k, k', v, h => by
      by_cases ha : a = k
      · simp [setField, getField, ha, h, fun hh : k = k' => h hh]
      · simp only [setField, if_neg ha, getField]
        by_cases ha' : a = k'
        · simp [ha']
        · simp [ha', getField_setField_ne fs k k' v h]

theorem removeField_setField :
    ∀ (fs : List (String × Json)) (k : String) (v : Json),
      removeField (setField fs k v) k = removeField fs k
  | [], k, v => by simp [setField, removeField, List.filter]
  | (a, b) :: fs, k, v => by
      by_cases ha : a = k
      · simp [setField, removeField, List.filter, ha]
      · simp only [setField, if_neg ha, removeField, List.filter_cons]
        have : (a != k) = true := by simp [ha]
        simp only [this]
        have ih := removeField_setField fs k v
        simp only [removeField] at ih
        simp [ih]

theorem removeField_setField_ne :
    ∀ (fs : List (String × Json)) (k k' : String) (v : Json), ¬ k = k' →
      removeField (setField fs k v) k' = setField (removeField fs k') k v
  | [], k, k', v, h => by
      have hkk : (k != k') = true := by simp [h]
      simp [setField, removeField, List.filter, hkk]
  | (a, b) :: fs, k, k', v, h => by
      by_cases ha : a = k
      · have hak' : (a != k') = true := by simp [ha]; exact fun hh => h (ha ▸ hh)
        simp [setField, removeField, List.filter_cons, ha, hak', h, fun hh : k = k' => h hh]
      · simp only [setField, if_neg ha, removeField, List.filter_cons]
        by_cases ha' : a = k'
        · have : (a != k') = false := by simp [ha']
          simp only [this, Bool.false_eq_true, if_false]
          have ih := removeField_setField_ne fs k k' v h
          simp only [removeField] at ih
          exact ih
        · have : (a != k') = true := by simp [ha']
          simp only [this, if_true]
          have ih := removeField_setField_ne fs k k' v h
          simp only [removeField] at ih
          simp [ih, setField, ha]

theorem removeField_eq_self :
    ∀ (fs : List (String × Json)) (k : String), getField fs k = none →
      removeField fs k = fs
  | [], k, _ => rfl
  | (a, b) :: fs, k, h => by
      simp only [getField] at h
      by_cases ha : a = k
      · simp [ha] at h
      · have : (a != k) = true := by simp [ha]
        simp only [removeField, List.filter_cons, this, if_true]
        have ih := removeField_eq_self fs k (by simpa [ha] using h)
        simp only [removeField] at ih
        simp [ih]

theorem isPrefixOf_append_eq :
    ∀ (l₁ l₂ l₃ : List Char), l₁.length ≤ l₂.length →
      l₁.isPrefixOf (l₂ ++ l₃) = l₁.isPrefixOf l₂
  | [], _, _, _ => by simp [List.isPrefixOf]
  | a :: as, [], _, h => by simp at h
  | a :: as, b :: bs, l₃, h => by
      simp only [List.cons_append, List.isPrefixOf, List.append_eq]
      rw [isPrefixOf_append_eq as bs l₃ (by simpa using h)]

theorem isPrefixOf_head_eq {a b : Char} {as bs : List Char} :
    ∀ {l : List Char}, (a :: as).isPrefixOf l = true → (b :: bs).isPrefixOf l = true → a = b
  | [], h₁, _ => by simp [List.isPrefixOf] at h₁
  | c :: cs, h₁, h₂ => by
      simp only [List.isPrefixOf, Bool.and_eq_true, beq_iff_eq] at h₁ h₂
      exact h₁.1.trans h₂.1.symm

theorem jsStartsWith_append (q rest p : String) (h : p.data.length ≤ q.data.length) :
    jsStartsWith (q ++ rest) p = jsStartsWith q p := by
  unfold jsStartsWith
  rw [String.data_append, isPrefixOf_append_eq _ _ _ h]

theorem jsStartsWith_ne_head (q rest : String) {p : String} {a b : Char}
    {ps qs : List Char} (hp : p.data = a :: ps) (hq : q.data = b :: qs)
    (hab : (a == b) = false) : jsStartsWith (q ++ rest) p = false := by
  unfold jsStartsWith
  rw [String.data_append, hp, hq]
  simp [List.isPrefixOf, hab]

theorem statsCategories_le_one (k : String) :
    (if jsStartsWith k "search_" then 1 else 0) +
      (if jsStartsWith k "recipe_" then 1 else 0) +
      (if jsStartsWith k "ingredient_" then 1 else 0) ≤ 1 := by
  have conv1 : ∀ (pre : String) (a : Char) (ps : List Char), pre.data = a :: ps →
      jsStartsWith k pre = true → (a :: ps).isPrefixOf k.data = true := by
    intro pre a ps hpre h
    unfold jsStartsWith at h
    rw [hpre] at h
    exact h
  have hs := conv1 "search_" 's' ['e', 'a', 'r', 'c', 'h', '_'] rfl
  have hr := conv1 "recipe_" 'r' ['e', 'c', 'i', 'p', 'e', '_'] rfl
  have hi := conv1 "ingredient_" 'i' ['n', 'g', 'r', 'e', 'd', 'i', 'e', 'n', 't', '_'] rfl
  by_cases h1 : jsStartsWith k "search_" = true <;>
    by_cases h2 : jsStartsWith k "recipe_" = true <;>
    by_cases h3 : jsStartsWith k "ingredient_" = true
  · exact absurd (isPrefixOf_head_eq (hs h1) (hr h2)) (by decide)
  · exact absurd (isPrefixOf_head_eq (hs h1) (hr h2)) (by decide)
  · exact absurd (isPrefixOf_head_eq (hs h1) (hi h3)) (by decide)
  · simp [h1, h2, h3]
  · exact absurd (isPrefixOf_head_eq (hr h2) (hi h3)) (by decide)
  · simp [h1, h2, h3]
  · simp [h1, h2, h3]
  · simp [h1, h2, h3]

theorem length_filter_three_le {α : Type} (p q r : α → Bool)
    (h : ∀ a, (if p a then 1 else 0) + (if q a then 1 else 0) +
      (if r a then 1 else 0) ≤ 1) :
    ∀ l : List α,
      (l.filter p).length + (l.filter q).length + (l.filter r).length ≤ l.length := by
  intro l
  induction l with
  | nil => simp
  | cons a l ih =>
      have ha := h a
      by_cases hp : p a = true <;> by_cases hq : q a = true <;> by_cases hr : r a = true <;>
        simp [List.filter_cons, hp, hq, hr] at ha ⊢ <;> omega

/-- C1 is refuted as stated: the key "k" is present and unexpired in the cache store
(`cacheGet` returns its stored value, `Json.null`), yet `fetchWithCache` performs a
remote call and returns the fresh remote payload annotated fromCache = false, because
the hit test `if (cached)` is JavaScript truthiness of the stored value, not key
presence. -/
theorem c1_falsy_hit_counterexample :
    cacheGet [("k", ⟨Json.null, 100⟩)] "k" 0 = some Json.null ∧
    (fetchWithCache [("k", ⟨Json.null, 100⟩)] 0 "T" "k"
      (.success (Json.bool true)) 3600).remoteCalls = 1 ∧
    (fetchWithCache [("k", ⟨Json.null, 100⟩)] 0 "T" "k"
      (.success (Json.bool true)) 3600).result = .ok (annotate (Json.bool true) false "T") :=
  ⟨rfl, rfl, rfl⟩

/-- C1 (amended): for every key present and unexpired in the cache store whose stored
value is truthy, `fetchWithCache` returns the stored value annotated with
fromCache = true and the return-time timestamp and performs no remote call; and a
truthy value stored by a first successful call is returned with fromCache = true and
no second remote call by a second call with the same key within the TTL window. -/
theorem c1_cache_hit :
    (∀ (c : Cache) (key : String) (now : Nat) (ts : String) (remote : RemoteOutcome)
        (ttl : Nat) (v : Json), cacheGet c key now = some v → v.truthy = true →
      fetchWithCache c now ts key remote ttl =
        { result := .ok (annotate v true ts), cache := c, remoteCalls := 0 }) ∧
    (∀ (c : Cache) (key : String) (now : Nat) (ts : String) (data : Json) (ttl : Nat)
        (now' : Nat) (ts' : String) (remote' : RemoteOutcome),
      cacheGet c key now = none → data.truthy = true → now' < now + ttl →
      fetchWithCache (fetchWithCache c now ts key (.success data) ttl).cache
          now' ts' key remote' ttl =
        { result := .ok (annotate data true ts'),
          cache := (fetchWithCache c now ts key (.success data) ttl).cache,
          remoteCalls := 0 }) := by
  constructor
  · intro c key now ts remote ttl v hget htr
    exact fetchWithCache_hit c now ts key remote ttl v hget htr
  · intro c key now ts data ttl now' ts' remote' hmiss htr hlt
    have h1 : fetchWithCache c now ts key (.success data) ttl =
        { result := .ok (annotate data false ts),
          cache := cacheSet c key data ttl now, remoteCalls := 1 } := by
      rw [fetchWithCache_of_none c now ts key _ ttl hmiss]
      rfl
    rw [h1]
    exact fetchWithCache_hit _ now' ts' key remote' ttl data
      (by rw [cacheGet_cacheSet_self]; simp [hlt]) htr

/-- Witness for `c1_cache_hit`: a concrete unexpired truthy entry is served with no
remote call, and a second call 10 seconds after a first miss is served from cache. -/
theorem c1_cache_hit_witness :
    fetchWithCache [("k", ⟨Json.num 7, 10⟩)] 0 "T" "k" (.networkError "down") 3600 =
      { result := .ok (annotate (Json.num 7) true "T"),
        cache := [("k", ⟨Json.num 7, 10⟩)], remoteCalls := 0 } ∧
    fetchWithCache (fetchWithCache [] 0 "T0" "k" (.success (Json.num 7)) 3600).cache
        10 "T1" "k" (.networkError "down") 3600 =
      { result := .ok (annotate (Json.num 7) true "T1"),
        cache := (fetchWithCache [] 0 "T0" "k" (.success (Json.num 7)) 3600).cache,
        remoteCalls := 0 } :=
  ⟨c1_cache_hit.1 [("k", ⟨Json.num 7, 10⟩)] "k" 0 "T" (.networkError "down") 3600
      (Json.num 7) (by decide) (by decide),
   c1_cache_hit.2 [] "k" 0 "T0" (Json.num 7) 3600 10 "T1" (.networkError "down")
      (by decide) (by decide) (by decide)⟩

/-- C2 (confirmed): for every key absent from the cache, `fetchWithCache` performs
exactly one remote call whatever the outcome; when the call succeeds with a parseable
body, the decoded value is stored under the key with expiry `now + ttlSeconds`,
returned annotated with fromCache = false and the current timestamp, and served by
the store at any instant before expiry. -/
theorem c2_cache_miss (c : Cache) (key : String) (now : Nat) (ts : String)
    (data : Json) (ttl : Nat) (hmiss : cacheGet c key now = none) :
    (∀ remote : RemoteOutcome, (fetchWithCache c now ts key remote ttl).remoteCalls = 1) ∧
    (fetchWithCache c now ts key (.success data) ttl).result =
      .ok (annotate data false ts) ∧
    cacheLookup (fetchWithCache c now ts key (.success data) ttl).cache key =
      some ⟨data, now + ttl⟩ ∧
    (∀ now' : Nat, now' < now + ttl →
      cacheGet (fetchWithCache c now ts key (.success data) ttl).cache key now' =
        some data) := by
  have hrw := fetchWithCache_of_none c now ts key (.success data) ttl hmiss
  refine ⟨?_, ?_, ?_, ?_⟩
  · intro remote
    rw [fetchWithCache_of_none c now ts key remote ttl hmiss, fetchMiss_remoteCalls]
  · rw [hrw]
    rfl
  · rw [hrw]
    show cacheLookup (cacheSet c key data ttl now) key = some ⟨data, now + ttl⟩
    exact cacheLookup_cacheSet_self c key data ttl now
  · intro now' hlt
    rw [hrw]
    show cacheGet (cacheSet c key data ttl now) key now' = some data
    rw [cacheGet_cacheSet_self]
    simp [hlt]

/-- Witness for `c2_cache_miss` on the empty cache. -/
theorem c2_cache_miss_witness :
    (fetchWithCache [] 0 "T" "k" (.httpError 500 "ERR") 3600).remoteCalls = 1 ∧
    (fetchWithCache [] 0 "T" "k" (.success (Json.num 7)) 3600).result =
      .ok (annotate (Json.num 7) false "T") ∧
    cacheLookup (fetchWithCache [] 0 "T" "k" (.success (Json.num 7)) 3600).cache "k" =
      some ⟨Json.num 7, 3600⟩ ∧
    cacheGet (fetchWithCache [] 0 "T" "k" (.success (Json.num 7)) 3600).cache "k" 5 =
      some (Json.num 7) :=
  ⟨(c2_cache_miss [] "k" 0 "T" (Json.num 7) 3600 (by decide)).1 (.httpError 500 "ERR"),
   (c2_cache_miss [] "k" 0 "T" (Json.num 7) 3600 (by decide)).2.1,
   (c2_cache_miss [] "k" 0 "T" (Json.num 7) 3600 (by decide)).2.2.1,
   (c2_cache_miss [] "k" 0 "T" (Json.num 7) 3600 (by decide)).2.2.2 5 (by decide)⟩

/-- C3 (confirmed): on every failing remote call (non-ok HTTP status, network error,
or body parse failure) no cache write occurs — an absent key is still absent
afterwards — and an error carrying the status/message is thrown in place of any
data; the search route handler maps that error to a 500 response whose details field
carries the upstream message. -/
theorem c3_upstream_failure :
    (∀ (c : Cache) (key : String) (now ttl st : Nat) (ts stxt : String),
      cacheGet c key now = none →
      fetchWithCache c now ts key (.httpError st stxt) ttl =
        { result := .error ("Failed to fetch data: API error: " ++ toString st ++ " " ++ stxt),
          cache := c, remoteCalls := 1 } ∧
      cacheGet (fetchWithCache c now ts key (.httpError st stxt) ttl).cache key now = none) ∧
    (∀ (c : Cache) (key : String) (now ttl : Nat) (ts msg : String),
      cacheGet c key now = none →
      fetchWithCache c now ts key (.networkError msg) ttl =
        { result := .error ("Failed to fetch data: " ++ msg), cache := c, remoteCalls := 1 }) ∧
    (∀ (c : Cache) (key : String) (now ttl : Nat) (ts msg : String),
      cacheGet c key now = none →
      fetchWithCache c now ts key (.parseError msg) ttl =
        { result := .error ("Failed to fetch data: " ++ msg), cache := c, remoteCalls := 1 }) ∧
    (∀ (c : Cache) (q : String) (now st : Nat) (ts stxt : String),
      ¬ q = "" → cacheGet c (searchRecipesKey q) now = none →
      (searchRecipesHandler c now ts (some q) (.httpError st stxt)).response.status = 500 ∧
      (searchRecipesHandler c now ts (some q) (.httpError st stxt)).response.body =
        searchFailureBody ("Failed to fetch data: API error: " ++ toString st ++ " " ++ stxt) ∧
      (searchRecipesHandler c now ts (some q) (.httpError st stxt)).cache = c ∧
      (searchRecipesHandler c now ts (some q) (.httpError st stxt)).remoteCalls = 1) := by
  refine ⟨?_, ?_, ?_, ?_⟩
  · intro c key now ttl st ts stxt hmiss
    have hrw := fetchWithCache_of_none c now ts key (.httpError st stxt) ttl hmiss
    exact ⟨by rw [hrw]; rfl, by rw [hrw]; exact hmiss⟩
  · intro c key now ttl ts msg hmiss
    rw [fetchWithCache_of_none c now ts key (.networkError msg) ttl hmiss]
    rfl
  · intro c key now ttl ts msg hmiss
    rw [fetchWithCache_of_none c now ts key (.parseError msg) ttl hmiss]
    rfl
  · intro c q now st ts stxt hq hmiss
    have hrw := fetchWithCache_of_none c now ts (searchRecipesKey q)
      (.httpError st stxt) 3600 hmiss
    simp only [searchRecipesHandler, if_neg hq, hrw, fetchMiss]
    exact ⟨trivial, trivial, trivial, trivial⟩

/-- Witness for `c3_upstream_failure`: a 502 upstream status on the empty cache. -/
theorem c3_upstream_failure_witness :
    (fetchWithCache [] 0 "T" "k" (.httpError 502 "Bad Gateway") 3600 =
      { result := .error "Failed to fetch data: API error: 502 Bad Gateway",
        cache := [], remoteCalls := 1 } ∧
     cacheGet (fetchWithCache [] 0 "T" "k" (.httpError 502 "Bad Gateway") 3600).cache
        "k" 0 = none) ∧
    fetchWithCache [] 0 "T" "k" (.networkError "socket hang up") 3600 =
      { result := .error "Failed to fetch data: socket hang up", cache := [], remoteCalls := 1 } ∧
    fetchWithCache [] 0 "T" "k" (.parseError "invalid json") 3600 =
      { result := .error "Failed to fetch data: invalid json", cache := [], remoteCalls := 1 } ∧
    (searchRecipesHandler [] 0 "T" (some "pasta") (.httpError 502 "Bad Gateway")).response.status = 500 ∧
    (searchRecipesHandler [] 0 "T" (some "pasta") (.httpError 502 "Bad Gateway")).response.body =
      searchFailureBody "Failed to fetch data: API error: 502 Bad Gateway" ∧
    (searchRecipesHandler [] 0 "T" (some "pasta") (.httpError 502 "Bad Gateway")).cache = [] ∧
    (searchRecipesHandler [] 0 "T" (some "pasta") (.httpError 502 "Bad Gateway")).remoteCalls = 1 := by
  have h4 := c3_upstream_failure.2.2.2 [] "pasta" 0 502 "T" "Bad Gateway"
    (by decide) (by decide)
  have h1 := c3_upstream_failure.1 [] "k" 0 3600 502 "T" "Bad Gateway" (by decide)
  have h2 := c3_upstream_failure.2.1 [] "k" 0 3600 "T" "socket hang up" (by decide)
  have h3 := c3_upstream_failure.2.2.1 [] "k" 0 3600 "T" "invalid json" (by decide)
  exact ⟨h1, h2, h3, h4.1, h4.2.1, h4.2.2.1, h4.2.2.2⟩

/-- C4 is refuted as stated: the convert operation embeds its free-text
ingredientName verbatim in the cache key, so two convert requests whose free-text
field differs only in letter case derive different keys. -/
theorem c4_convert_case_counterexample :
    jsToLower "Flour" = jsToLower "flour" ∧
    convertKey "Flour" "1" "cup" "grams" ≠ convertKey "flour" "1" "cup" "grams" :=
  ⟨by decide, by decide⟩

/-- C4 (amended): key derivation is deterministic, and the search operation
case-folds its free-text query — any two queries equal up to lower-casing derive
the same key, in particular "Chicken" and "chicken" — but the convert operation
uses its free-text ingredientName verbatim, so convert keys differing only in the
case of the ingredient name differ. -/
theorem c4_key_casefold :
    (∀ q₁ q₂ : String, jsToLower q₁ = jsToLower q₂ →
      searchRecipesKey q₁ = searchRecipesKey q₂) ∧
    searchRecipesKey "Chicken" = searchRecipesKey "chicken" ∧
    convertKey "Flour" "1" "cup" "grams" ≠ convertKey "flour" "1" "cup" "grams" := by
  refine ⟨?_, by decide, by decide⟩
  intro q₁ q₂ h
  unfold searchRecipesKey
  rw [h]

/-- Witness for `c4_key_casefold` at concretely cased queries. -/
theorem c4_key_casefold_witness :
    searchRecipesKey "CHICKEN" = searchRecipesKey "chicken" :=
  c4_key_casefold.1 "CHICKEN" "chicken" (by decide)

/-- C5 (confirmed; the cache store itself is modelled from the spec, its NodeCache
implementation not being under src/): an entry whose expiry instant has been reached
is never returned by the store — it is treated as absent — so a repeated
`fetchWithCache` call with the same key after the TTL has elapsed takes the miss
path: exactly one new remote call, fromCache = false. -/
theorem c5_expiry :
    (∀ (c : Cache) (key : String) (now : Nat) (e : CacheEntry),
      cacheLookup c key = some e → e.expiresAt ≤ now → cacheGet c key now = none) ∧
    (∀ (c : Cache) (key : String) (now : Nat) (ts : String) (data : Json) (ttl : Nat)
        (now' : Nat) (ts' : String) (data' : Json),
      cacheGet c key now = none → now + ttl ≤ now' →
      (fetchWithCache (fetchWithCache c now ts key (.success data) ttl).cache
          now' ts' key (.success data') ttl).remoteCalls = 1 ∧
      (fetchWithCache (fetchWithCache c now ts key (.success data) ttl).cache
          now' ts' key (.success data') ttl).result = .ok (annotate data' false ts')) := by
  constructor
  · intro c key now e hl he
    unfold cacheGet
    rw [hl]
    simp [Nat.not_lt.mpr he]
  · intro c key now ts data ttl now' ts' data' hmiss hge
    have h1 : (fetchWithCache c now ts key (.success data) ttl).cache =
        cacheSet c key data ttl now := by
      rw [fetchWithCache_of_none c now ts key _ ttl hmiss]
      rfl
    have h2 : cacheGet (cacheSet c key data ttl now) key now' = none := by
      rw [cacheGet_cacheSet_self, if_neg (Nat.not_lt.mpr hge)]
    have h3 := fetchWithCache_of_none (cacheSet c key data ttl now) now' ts' key
      (.success data') ttl h2
    rw [h1, h3]
    exact ⟨rfl, rfl⟩

/-- Witness for `c5_expiry`: an entry that expired at t = 10 queried at t = 10, and a
second call exactly one TTL after a first miss. -/
theorem c5_expiry_witness :
    cacheGet [("k", ⟨Json.num 7, 10⟩)] "k" 10 = none ∧
    (fetchWithCache (fetchWithCache [] 0 "T0" "k" (.success (Json.num 7)) 3600).cache
        3600 "T1" "k" (.success (Json.num 8)) 3600).remoteCalls = 1 ∧
    (fetchWithCache (fetchWithCache [] 0 "T0" "k" (.success (Json.num 7)) 3600).cache
        3600 "T1" "k" (.success (Json.num 8)) 3600).result =
      .ok (annotate (Json.num 8) false "T1") := by
  have h1 := c5_expiry.1 [("k", ⟨Json.num 7, 10⟩)] "k" 10 ⟨Json.num 7, 10⟩
    (by decide) (by decide)
  have h2 := c5_expiry.2 [] "k" 0 "T0" (Json.num 7) 3600 3600 "T1" (Json.num 8)
    (by decide) (by decide)
  exact ⟨h1, h2.1, h2.2⟩

/-- C6 is refuted as stated: an upstream JSON array payload is not passed through
unmodified — the object spread turns it into an object keyed by element indices. On
a miss with array payload [1] the client receives an object, and erasing the two
annotation fields leaves that object, not the original array. -/
theorem c6_array_counterexample :
    (fetchWithCache [] 0 "T" "k" (.success (Json.arr [Json.num 1])) 3600).result =
      .ok (Json.obj [("0", Json.num 1), ("fromCache", Json.bool false),
        ("timestamp", Json.str "T")]) ∧
    stripAnn (Json.obj [("0", Json.num 1), ("fromCache", Json.bool false),
      ("timestamp", Json.str "T")]) ≠ Json.arr [Json.num 1] :=
  ⟨rfl, by decide⟩

/-- C6 (amended): for every upstream JSON object payload that does not already carry
a fromCache or timestamp field, the value built by the response annotation — the
same `annotate` applied on both the hit and the miss path — is the payload
unmodified except for the two added annotation fields: erasing them recovers the
payload exactly, and they hold the annotation values. Array and scalar payloads are
not passed through unmodified. -/
theorem c6_object_passthrough (fs : List (String × Json)) (b : Bool) (ts : String)
    (h1 : getField fs "fromCache" = none) (h2 : getField fs "timestamp" = none) :
    stripAnn (annotate (Json.obj fs) b ts) = Json.obj fs ∧
    objField (annotate (Json.obj fs) b ts) "fromCache" = some (Json.bool b) ∧
    objField (annotate (Json.obj fs) b ts) "timestamp" = some (Json.str ts) := by
  refine ⟨?_, ?_, ?_⟩
  · show Json.obj (removeField (removeField (setField (setField fs "fromCache"
      (Json.bool b)) "timestamp" (Json.str ts)) "fromCache") "timestamp") = Json.obj fs
    rw [removeField_setField_ne _ "timestamp" "fromCache" _ (by decide),
        removeField_setField, removeField_setField,
        removeField_eq_self fs "fromCache" h1, removeField_eq_self fs "timestamp" h2]
  · show getField (setField (setField fs "fromCache" (Json.bool b)) "timestamp"
      (Json.str ts)) "fromCache" = some (Json.bool b)
    rw [getField_setField_ne _ "timestamp" "fromCache" _ (by decide),
        getField_setField_self]
  · show getField (setField (setField fs "fromCache" (Json.bool b)) "timestamp"
      (Json.str ts)) "timestamp" = some (Json.str ts)
    rw [getField_setField_self]

/-- Witness for `c6_object_passthrough` on a one-field object payload. -/
theorem c6_object_passthrough_witness :
    stripAnn (annotate (Json.obj [("a", Json.num 1)]) false "T") =
      Json.obj [("a", Json.num 1)] ∧
    objField (annotate (Json.obj [("a", Json.num 1)]) false "T") "fromCache" =
      some (Json.bool false) ∧
    objField (annotate (Json.obj [("a", Json.num 1)]) false "T") "timestamp" =
      some (Json.str "T") :=
  c6_object_passthrough [("a", Json.num 1)] false "T" (by decide) (by decide)

/-- C7 (confirmed): a search request with no query parameter — or an empty one,
which `if (!query)` treats the same — is answered 400 with the structured
error/example body; the cache is unchanged and no remote call is made, so neither
key derivation nor the store nor the upstream is reached. -/
theorem c7_missing_query (c : Cache) (now : Nat) (ts : String) (remote : RemoteOutcome) :
    searchRecipesHandler c now ts none remote =
      { response := { status := 400, body := missingQueryBody }, cache := c, remoteCalls := 0 } ∧
    searchRecipesHandler c now ts (some "") remote =
      { response := { status := 400, body := missingQueryBody }, cache := c, remoteCalls := 0 } ∧
    missingQueryBody = Json.obj [("error", Json.str "Query parameter is required"),
      ("example", Json.str "/api/searchRecipes?query=chicken")] :=
  ⟨rfl, rfl, rfl⟩

/-- C9 (confirmed): a successful upstream call decoding to a falsy JSON value
(null, false, 0, or the empty string) is stored in the cache, yet every subsequent
call with the same key — at any later instant, inside the TTL window or not — fails
the truthiness hit test, performs another remote call, and on success returns
fromCache = false: a stored falsy value is never served from the cache. -/
theorem c9_falsy_never_served (c : Cache) (key : String) (now : Nat) (ts : String)
    (data : Json) (ttl : Nat)
    (hmiss : cacheGet c key now = none) (hfalsy : data.truthy = false) :
    cacheLookup (fetchWithCache c now ts key (.success data) ttl).cache key =
      some ⟨data, now + ttl⟩ ∧
    (∀ (now' : Nat) (ts' : String) (remote' : RemoteOutcome),
      (fetchWithCache (fetchWithCache c now ts key (.success data) ttl).cache
        now' ts' key remote' ttl).remoteCalls = 1) ∧
    (∀ (now' : Nat) (ts' : String) (data' : Json),
      (fetchWithCache (fetchWithCache c now ts key (.success data) ttl).cache
        now' ts' key (.success data') ttl).result = .ok (annotate data' false ts')) := by
  have h1 : (fetchWithCache c now ts key (.success data) ttl).cache =
      cacheSet c key data ttl now := by
    rw [fetchWithCache_of_none c now ts key _ ttl hmiss]
    rfl
  have hmiss2 : ∀ (now' : Nat) (remote' : RemoteOutcome) (ts' : String),
      fetchWithCache (cacheSet c key data ttl now) now' ts' key remote' ttl =
        fetchMiss (cacheSet c key data ttl now) now' ts' key remote' ttl := by
    intro now' remote' ts'
    by_cases hlt : now' < now + ttl
    · exact fetchWithCache_of_falsy _ now' ts' key remote' ttl data
        (by rw [cacheGet_cacheSet_self]; simp [hlt]) hfalsy
    · exact fetchWithCache_of_none _ now' ts' key remote' ttl
        (by rw [cacheGet_cacheSet_self]; simp [hlt])
  refine ⟨?_, ?_, ?_⟩
  · rw [h1]
    exact cacheLookup_cacheSet_self c key data ttl now
  · intro now' ts' remote'
    rw [h1, hmiss2 now' remote' ts', fetchMiss_remoteCalls]
  · intro now' ts' data'
    rw [h1, hmiss2 now' (.success data') ts']
    rfl

/-- Witness for `c9_falsy_never_served`: a stored null is present in the store but a
call 5 seconds later still makes a remote call and answers fromCache = false. -/
theorem c9_falsy_never_served_witness :
    cacheLookup (fetchWithCache [] 0 "T0" "k" (.success Json.null) 3600).cache "k" =
      some ⟨Json.null, 3600⟩ ∧
    (fetchWithCache (fetchWithCache [] 0 "T0" "k" (.success Json.null) 3600).cache
      5 "T1" "k" (.success (Json.num 2)) 3600).remoteCalls = 1 ∧
    (fetchWithCache (fetchWithCache [] 0 "T0" "k" (.success Json.null) 3600).cache
      5 "T1" "k" (.success (Json.num 2)) 3600).result =
      .ok (annotate (Json.num 2) false "T1") := by
  have h := c9_falsy_never_served [] "k" 0 "T0" Json.null 3600 (by decide) (by decide)
  exact ⟨h.1, h.2.1 5 "T1" (.success (Json.num 2)), h.2.2 5 "T1" (Json.num 2)⟩

/-- C10 (confirmed): for every cache state the stats response satisfies
totalCachedItems = |cacheKeys|; the three category counters count keys with the
pairwise-disjoint prefixes search_, recipe_ and ingredient_, so their sum never
exceeds the total; every ingredient-family key (autocomplete, search, information,
amount) increments cachedIngredients; and recipe sub-resource keys (similar_,
taste_, nutrition_) increment none of the three counters. -/
theorem c10_cache_stats (keys : List String) (rest : String) :
    (cacheStats keys).totalCachedItems = (cacheStats keys).cacheKeys.length ∧
    (cacheStats keys).cachedQueries + (cacheStats keys).cachedRecipes +
      (cacheStats keys).cachedIngredients ≤ (cacheStats keys).totalCachedItems ∧
    (cacheStats (("ingredient_autocomplete_" ++ rest) :: keys)).cachedIngredients =
      (cacheStats keys).cachedIngredients + 1 ∧
    (cacheStats (("ingredient_search_" ++ rest) :: keys)).cachedIngredients =
      (cacheStats keys).cachedIngredients + 1 ∧
    (cacheStats (("ingredient_" ++ rest) :: keys)).cachedIngredients =
      (cacheStats keys).cachedIngredients + 1 ∧
    (cacheStats (("ingredient_amount_" ++ rest) :: keys)).cachedIngredients =
      (cacheStats keys).cachedIngredients + 1 ∧
    ((cacheStats (("similar_" ++ rest) :: keys)).cachedQueries = (cacheStats keys).cachedQueries ∧
     (cacheStats (("similar_" ++ rest) :: keys)).cachedRecipes = (cacheStats keys).cachedRecipes ∧
     (cacheStats (("similar_" ++ rest) :: keys)).cachedIngredients = (cacheStats keys).cachedIngredients) ∧
    ((cacheStats (("taste_" ++ rest) :: keys)).cachedQueries = (cacheStats keys).cachedQueries ∧
     (cacheStats (("taste_" ++ rest) :: keys)).cachedRecipes = (cacheStats keys).cachedRecipes ∧
     (cacheStats (("taste_" ++ rest) :: keys)).cachedIngredients = (cacheStats keys).cachedIngredients) ∧
    ((cacheStats (("nutrition_" ++ rest) :: keys)).cachedQueries = (cacheStats keys).cachedQueries ∧
     (cacheStats (("nutrition_" ++ rest) :: keys)).cachedRecipes = (cacheStats keys).cachedRecipes ∧
     (cacheStats (("nutrition_" ++ rest) :: keys)).cachedIngredients = (cacheStats keys).cachedIngredients) := by
  have hA1 : jsStartsWith ("ingredient_autocomplete_" ++ rest) "ingredient_" = true :=
    (jsStartsWith_append "ingredient_autocomplete_" rest "ingredient_" (by decide)).trans
      (by decide)
  have hA2 : jsStartsWith ("ingredient_search_" ++ rest) "ingredient_" = true :=
    (jsStartsWith_append "ingredient_search_" rest "ingredient_" (by decide)).trans
      (by decide)
  have hA3 : jsStartsWith ("ingredient_" ++ rest) "ingredient_" = true :=
    (jsStartsWith_append "ingredient_" rest "ingredient_" (by decide)).trans (by decide)
  have hA4 : jsStartsWith ("ingredient_amount_" ++ rest) "ingredient_" = true :=
    (jsStartsWith_append "ingredient_amount_" rest "ingredient_" (by decide)).trans
      (by decide)
  have hS1 : jsStartsWith ("similar_" ++ rest) "search_" = false :=
    (jsStartsWith_append "similar_" rest "search_" (by decide)).trans (by decide)
  have hS2 : jsStartsWith ("similar_" ++ rest) "recipe_" = false :=
    (jsStartsWith_append "similar_" rest "recipe_" (by decide)).trans (by decide)
  have hS3 : jsStartsWith ("similar_" ++ rest) "ingredient_" = false :=
    jsStartsWith_ne_head "similar_" rest rfl rfl (by decide)
  have hT1 : jsStartsWith ("taste_" ++ rest) "search_" = false :=
    jsStartsWith_ne_head "taste_" rest rfl rfl (by decide)
  have hT2 : jsStartsWith ("taste_" ++ rest) "recipe_" = false :=
    jsStartsWith_ne_head "taste_" rest rfl rfl (by decide)
  have hT3 : jsStartsWith ("taste_" ++ rest) "ingredient_" = false :=
    jsStartsWith_ne_head "taste_" rest rfl rfl (by decide)
  have hN1 : jsStartsWith ("nutrition_" ++ rest) "search_" = false :=
    (jsStartsWith_append "nutrition_" rest "search_" (by decide)).trans (by decide)
  have hN2 : jsStartsWith ("nutrition_" ++ rest) "recipe_" = false :=
    (jsStartsWith_append "nutrition_" rest "recipe_" (by decide)).trans (by decide)
  have hN3 : jsStartsWith ("nutrition_" ++ rest) "ingredient_" = false :=
    jsStartsWith_ne_head "nutrition_" rest rfl rfl (by decide)
  have hsum := length_filter_three_le (fun k => jsStartsWith k "search_")
    (fun k => jsStartsWith k "recipe_") (fun k => jsStartsWith k "ingredient_")
    (fun k => statsCategories_le_one k) keys
  refine ⟨rfl, by simpa [cacheStats] using hsum, ?_, ?_, ?_, ?_, ?_, ?_, ?_⟩
  · simp [cacheStats, List.filter_cons, hA1]
  · simp [cacheStats, List.filter_cons, hA2]
  · simp [cacheStats, List.filter_cons, hA3]
  · simp [cacheStats, List.filter_cons, hA4]
  · exact ⟨by simp [cacheStats, List.filter_cons, hS1],
      by simp [cacheStats, List.filter_cons, hS2],
      by simp [cacheStats, List.filter_cons, hS3]⟩
  · exact ⟨by simp [cacheStats, List.filter_cons, hT1],
      by simp [cacheStats, List.filter_cons, hT2],
      by simp [cacheStats, List.filter_cons, hT3]⟩
  · exact ⟨by simp [cacheStats, List.filter_cons, hN1],
      by simp [cacheStats, List.filter_cons, hN2],
      by simp [cacheStats, List.filter_cons, hN3]⟩

end Spoonacular
